import Mathlib

/-!
Verification of the block abstraction in `fms_dgt/base/block.py`.

Shallow embedding: Python dynamic values become `Value`, rows become `Row`
(the mapping-access representation covers `dict` — and the `pd.DataFrame` /
`Dataset` cases of the source's `isinstance` dispatch, which all use
`.get` / item access; `attrRow` stands for `pd.Series`, which the source's
`isinstance` tuple does NOT include; `otherRow` stands for any other Python
object).  Python exceptions become the `Err` sum, raised through `Except`.
Methods that in Python receive a mutable `self` are embedded in state-passing
style: they return the (possibly updated) receiver next to their result, so
that absence of configuration mutation is a provable statement rather than a
modelling artefact.
-/

/-- A Python runtime value, restricted to the shapes the claims exercise.
`vNone` is Python `None` (also the absent marker returned by `dict.get`). -/
inductive Value where
  | vNone : Value
  | vBool : Bool → Value
  | vInt : Int → Value
  | vStr : String → Value
  deriving DecidableEq

/-- Python truthiness, as used by `if res or not self._filter_invalids`. -/
def Value.truthy : Value → Bool
  | .vNone => false
  | .vBool b => b
  | .vInt n => n != 0
  | .vStr s => !s.isEmpty

/-- A row handed to a block.  `mapRow` is the mapping-access representation
(`dict`, and the other members of the source's `isinstance` tuple); `attrRow`
is a `pd.Series` record (attribute-bearing, equivalent content); `otherRow`
is any unsupported object, carrying the text of its Python type. -/
inductive Row where
  | mapRow : List (String × Value) → Row
  | attrRow : List (String × Value) → Row
  | otherRow : String → Row
  deriving DecidableEq

/-- The text Python's `f"{type(inp)}"` produces for each row representation. -/
def Row.typeName : Row → String
  | .mapRow _ => "<class \x27dict\x27>"
  | .attrRow _ => "<class \x27pandas.core.series.Series\x27>"
  | .otherRow t => t

/-- The exceptions the embedded code can raise. -/
inductive Err where
  | typeError : String → Err
  | assertionError : String → Err
  | keyError : String → Err
  | attributeError : String → Err
  deriving DecidableEq

/-- First value stored under key `f`, if any (`f in d` / `d[f]` success). -/
def lookupField : List (String × Value) → String → Option Value
  | [], _ => none
  | (k, v) :: rest, f => if k = f then some v else lookupField rest f

/-- Python `d.get(f)`: the stored value, or `None` when the key is absent. -/
def dictGet (es : List (String × Value)) (f : String) : Value :=
  (lookupField es f).getD Value.vNone

/-- Python `d[f] = v`: replace the value in place if the key exists,
otherwise append the new entry (dict insertion order). -/
def setFieldD : List (String × Value) → String → Value → List (String × Value)
  | [], f, v => [(f, v)]
  | (k, w) :: rest, f, v =>
      if k = f then (f, v) :: rest else (k, w) :: setFieldD rest f v

/-- The dict comprehension of the source:
`\x7bkwarg: inp.get(kwarg) for kwarg in kwarg_fields\x7d`. -/
def buildKwargs (es : List (String × Value)) (kf : List String) :
    List (String × Value) :=
  kf.foldl (fun d k => setFieldD d k (dictGet es k)) []

/-- A Python object passed as a constructor argument (for the dynamic type
checks of `BaseBlock.__init__`). -/
inductive PyObj where
  | pyNone : PyObj
  | pyStr : String → PyObj
  | pyList : List String → PyObj
  | pyInt : Int → PyObj
  | pyBool : Bool → PyObj
  deriving DecidableEq

/-- `isinstance(x, (list, None.__class__))`. -/
def PyObj.isListOrNone : PyObj → Bool
  | .pyNone => true
  | .pyList _ => true
  | _ => false

/-- `isinstance(x, (str, None.__class__))`. -/
def PyObj.isStrOrNone : PyObj → Bool
  | .pyNone => true
  | .pyStr _ => true
  | _ => false

/-- The `Optional[List[str]]` a well-typed argument denotes. -/
def PyObj.toListOpt : PyObj → Option (List String)
  | .pyList l => some l
  | _ => none

/-- The `Optional[str]` a well-typed argument denotes. -/
def PyObj.toStrOpt : PyObj → Option String
  | .pyStr s => some s
  | _ => none

/-- Stored configuration of `BaseBlock` (its `self._*` attributes). -/
structure BaseBlock where
  _name : Option String
  _block_type : Option String
  _arg_fields : Option (List String)
  _kwarg_fields : Option (List String)
  _result_field : Option String
  deriving DecidableEq

/-- `BaseBlock.__init__`: the three dynamic type checks in source order, then
the attribute assignments. -/
def initBlock (name type : Option String) (arg_fields kwarg_fields result_field : PyObj) :
    Except Err BaseBlock :=
  if !arg_fields.isListOrNone then
    .error (.typeError "arg_fields must be of type \x27list\x27")
  else if !kwarg_fields.isListOrNone then
    .error (.typeError "kwarg_fields must be of type \x27list\x27")
  else if !result_field.isStrOrNone then
    .error (.typeError "result_field must be of type \x27str\x27")
  else
    .ok { _name := name, _block_type := type,
          _arg_fields := arg_fields.toListOpt,
          _kwarg_fields := kwarg_fields.toListOpt,
          _result_field := result_field.toStrOpt }

/-- Read-only accessor `name`. -/
def BaseBlock.name (b : BaseBlock) : Option String := b._name

/-- Read-only accessor `block_type`. -/
def BaseBlock.block_type (b : BaseBlock) : Option String := b._block_type

/-- Read-only accessor `arg_fields`. -/
def BaseBlock.arg_fields (b : BaseBlock) : Option (List String) := b._arg_fields

/-- Read-only accessor `kwarg_fields`. -/
def BaseBlock.kwarg_fields (b : BaseBlock) : Option (List String) := b._kwarg_fields

/-- Read-only accessor `result_field`. -/
def BaseBlock.result_field (b : BaseBlock) : Option String := b._result_field

/-- Python `a or b or []` on `Optional[List[str]]` operands: `None` and the
empty list are both falsy. -/
def pyOrFields : Option (List String) → Option (List String) → List String
  | some (a :: l), _ => a :: l
  | _, some (a :: l) => a :: l
  | _, _ => []

/-- Python `a or b` on `Optional[str]` operands: `None` and `""` are falsy. -/
def pyOrStr : Option String → Option String → Option String
  | some s, b => if s.isEmpty then b else some s
  | none, b => b

/-- `BaseBlock.get_args_kwargs`: resolve the effective field lists, then
dispatch on the row representation (mapping-access branch, else `TypeError`).
Returns the receiver next to the result (state-passing `self`). -/
def BaseBlock.get_args_kwargs (b : BaseBlock) (inp : Row)
    (arg_fields kwarg_fields : Option (List String)) :
    BaseBlock × Except Err (List Value × List (String × Value)) :=
  let argF := pyOrFields arg_fields b._arg_fields
  let kwargF := pyOrFields kwarg_fields b._kwarg_fields
  match inp with
  | .mapRow es => (b, .ok (argF.map (fun a => dictGet es a), buildKwargs es kwargF))
  | _ => (b, .error (.typeError ("Unexpected input type: " ++ inp.typeName)))

/-- `BaseBlock.write_result`: resolve the result field, `assert` it is not
`None`, then item-assign on a mapping-access row (else `TypeError`).  The new
row state is returned; on an error no row is produced (the row is untouched). -/
def BaseBlock.write_result (b : BaseBlock) (inp : Row) (res : Value)
    (result_field : Option String) : BaseBlock × Except Err Row :=
  match pyOrStr result_field b._result_field with
  | none => (b, .error (.assertionError "Result field cannot be None!"))
  | some f =>
    match inp with
    | .mapRow es => (b, .ok (.mapRow (setFieldD es f res)))
    | _ => (b, .error (.typeError ("Unexpected input type: " ++ inp.typeName)))

/-- `BaseBlock.get_result`: same resolution and assertion as `write_result`,
then strict item access `inp[result_field]` (a missing key is a `KeyError`,
not the absent marker). -/
def BaseBlock.get_result (b : BaseBlock) (inp : Row)
    (result_field : Option String) : BaseBlock × Except Err Value :=
  match pyOrStr result_field b._result_field with
  | none => (b, .error (.assertionError "Result field cannot be None!"))
  | some f =>
    match inp with
    | .mapRow es =>
      match lookupField es f with
      | some v => (b, .ok v)
      | none => (b, .error (.keyError f))
    | _ => (b, .error (.typeError ("Unexpected input type: " ++ inp.typeName)))

/-- `BaseValidatorBlock`: a `BaseBlock` plus the `self._filter_invalids` flag
(constructor parameter `filter`, default `False`). -/
structure BaseValidatorBlock extends BaseBlock where
  _filter_invalids : Bool
  deriving DecidableEq

/-- The loop of `BaseValidatorBlock.generate`, one input row at a time:
project, `_validate`, and when the verdict is truthy or the block does not
filter, write the verdict and append the row to `outputs`.  `_validate` is
abstract in the source, so it is a function parameter.  Returns the updated
receiver, the final states of all input rows, and `outputs`. -/
def generateGo (validate : List Value → List (String × Value) → Value)
    (af kf : Option (List String)) (rf : Option String) :
    BaseValidatorBlock → List Row →
    Except Err (BaseValidatorBlock × List Row × List Row)
  | vb, [] => .ok (vb, [], [])
  | vb, x :: rest =>
    let p := vb.toBaseBlock.get_args_kwargs x af kf
    let vb1 : BaseValidatorBlock := { vb with toBaseBlock := p.1 }
    match p.2 with
    | .error e => .error e
    | .ok (args, kwargs) =>
      let res := validate args kwargs
      if res.truthy || !vb1._filter_invalids then
        let w := vb1.toBaseBlock.write_result x res rf
        let vb2 : BaseValidatorBlock := { vb1 with toBaseBlock := w.1 }
        match w.2 with
        | .error e => .error e
        | .ok x2 =>
          match generateGo validate af kf rf vb2 rest with
          | .error e => .error e
          | .ok (vbf, fin, outs) => .ok (vbf, x2 :: fin, x2 :: outs)
      else
        match generateGo validate af kf rf vb1 rest with
        | .error e => .error e
        | .ok (vbf, fin, outs) => .ok (vbf, x :: fin, outs)

/-- `BaseValidatorBlock.generate` over a materialized input collection. -/
def BaseValidatorBlock.generate (vb : BaseValidatorBlock)
    (validate : List Value → List (String × Value) → Value)
    (inputs : List Row) (arg_fields kwarg_fields : Option (List String))
    (result_field : Option String) :
    Except Err (BaseValidatorBlock × List Row × List Row) :=
  generateGo validate arg_fields kwarg_fields result_field vb inputs

/-- Per-row outcome of the validator loop, as the specification describes it:
project the row, take the `_validate` verdict, and when the verdict is truthy
or the block was constructed with `filter=False`, write the verdict into the
row's resolved result field and retain the written row; otherwise drop the
row (its result field left unwritten).  Used to state that `generate` is the
order-preserving row-wise map/filter of this function. -/
def rowOutcome (vb : BaseValidatorBlock)
    (validate : List Value → List (String × Value) → Value)
    (af kf : Option (List String)) (rf : Option String) (x : Row) : Option Row :=
  match (vb.toBaseBlock.get_args_kwargs x af kf).2 with
  | .error _ => none
  | .ok (args, kwargs) =>
    let res := validate args kwargs
    if res.truthy || !vb._filter_invalids then
      match (vb.toBaseBlock.write_result x res rf).2 with
      | .error _ => none
      | .ok x2 => some x2
    else none

/-- Example block: positional field `a`, result field `res`. -/
def bEx : BaseBlock :=
  { _name := some "b", _block_type := none, _arg_fields := some ["a"],
    _kwarg_fields := none, _result_field := some "res" }

/-- Example block with no configuration at all. -/
def bEmpty : BaseBlock :=
  { _name := none, _block_type := none, _arg_fields := none,
    _kwarg_fields := none, _result_field := none }

/-- Example validator: reads field `v`, result field `res`, `filter=True`. -/
def vbEx : BaseValidatorBlock :=
  { _name := none, _block_type := none, _arg_fields := some ["v"],
    _kwarg_fields := none, _result_field := some "res",
    _filter_invalids := true }

/-- Example `_validate`: true iff the single positional value equals `1`. -/
def validateEx (args : List Value) (_ : List (String × Value)) : Value :=
  Value.vBool (decide (args = [Value.vInt 1]))

/-- Example input collection `[ \x7b"v":1\x7d, \x7b"v":0\x7d ]`. -/
def exInputs : List Row :=
  [Row.mapRow [("v", Value.vInt 1)], Row.mapRow [("v", Value.vInt 0)]]

theorem get_args_kwargs_fst (b : BaseBlock) (inp : Row)
    (af kf : Option (List String)) : (b.get_args_kwargs inp af kf).1 = b := by
  cases inp <;> rfl

theorem write_result_fst (b : BaseBlock) (inp : Row) (res : Value)
    (rf : Option String) : (b.write_result inp res rf).1 = b := by
  unfold BaseBlock.write_result
  cases pyOrStr rf b._result_field <;> [rfl; (cases inp <;> rfl)]

theorem get_result_fst (b : BaseBlock) (inp : Row) (rf : Option String) :
    (b.get_result inp rf).1 = b := by
  unfold BaseBlock.get_result
  cases pyOrStr rf b._result_field with
  | none => rfl
  | some f =>
    cases inp with
    | mapRow es => cases h : lookupField es f <;> simp [h]
    | attrRow es => rfl
    | otherRow t => rfl

theorem pyOrFields_cons (a : String) (l : List String)
    (q : Option (List String)) : pyOrFields (some (a :: l)) q = a :: l := by
  cases q with
  | none => rfl
  | some l2 => cases l2 <;> rfl

theorem lookupField_setFieldD (es : List (String × Value)) (f : String)
    (v : Value) : lookupField (setFieldD es f v) f = some v := by
  induction es with
  | nil => simp [setFieldD, lookupField]
  | cons p rest ih =>
    by_cases h : p.1 = f
    · simp [setFieldD, h, lookupField]
    · simp [setFieldD, h, lookupField, ih]

theorem vb_update_self (vb : BaseValidatorBlock) :
    ({ vb with toBaseBlock := vb.toBaseBlock } : BaseValidatorBlock) = vb := rfl

theorem generateGo_ok (validate : List Value → List (String × Value) → Value)
    (af kf : Option (List String)) (rf : Option String) :
    ∀ (l : List Row) (vb vbf : BaseValidatorBlock) (fin outs : List Row),
    generateGo validate af kf rf vb l = .ok (vbf, fin, outs) →
    vbf = vb ∧
    fin = l.map (fun y => (rowOutcome vb validate af kf rf y).getD y) ∧
    outs = l.filterMap (rowOutcome vb validate af kf rf) := by
  intro l
  induction l with
  | nil =>
    intro vb vbf fin outs h
    simp only [generateGo, Except.ok.injEq, Prod.mk.injEq] at h
    obtain ⟨h1, h2, h3⟩ := h
    subst h1; subst h2; subst h3
    simp
  | cons x rest ih =>
    intro vb vbf fin outs h
    simp only [generateGo, get_args_kwargs_fst, write_result_fst, vb_update_self] at h
    cases hp : (vb.toBaseBlock.get_args_kwargs x af kf).2 with
    | error e => rw [hp] at h; simp at h
    | ok pr =>
      obtain ⟨args, kwargs⟩ := pr
      rw [hp] at h
      simp only at h
      cases hc : ((validate args kwargs).truthy || !vb._filter_invalids) with
      | true =>
        rw [hc] at h
        simp only [if_true] at h
        cases hw : (vb.toBaseBlock.write_result x (validate args kwargs) rf).2 with
        | error e => rw [hw] at h; simp at h
        | ok x2 =>
          rw [hw] at h
          simp only at h
          cases hg : generateGo validate af kf rf vb rest with
          | error e => rw [hg] at h; simp at h
          | ok tr =>
            obtain ⟨vbf2, fin2, outs2⟩ := tr
            rw [hg] at h
            simp only [Except.ok.injEq, Prod.mk.injEq] at h
            obtain ⟨h1, h2, h3⟩ := h
            obtain ⟨hvb, hfin, houts⟩ := ih vb vbf2 fin2 outs2 hg
            have hro : rowOutcome vb validate af kf rf x = some x2 := by
              simp only [rowOutcome, hp, hc, hw]
              rfl
            subst h1; subst hvb
            refine ⟨rfl, ?_, ?_⟩
            · rw [← h2, hfin]
              simp [hro]
            · rw [← h3, houts]
              simp [List.filterMap_cons, hro]
      | false =>
        rw [hc] at h
        simp at h
        cases hg : generateGo validate af kf rf vb rest with
        | error e => rw [hg] at h; simp at h
        | ok tr =>
          obtain ⟨vbf2, fin2, outs2⟩ := tr
          rw [hg] at h
          simp only [Except.ok.injEq, Prod.mk.injEq] at h
          obtain ⟨h1, h2, h3⟩ := h
          obtain ⟨hvb, hfin, houts⟩ := ih vb vbf2 fin2 outs2 hg
          have hro : rowOutcome vb validate af kf rf x = none := by
            simp only [rowOutcome, hp, hc]
            rfl
          subst h1; subst hvb
          refine ⟨rfl, ?_, ?_⟩
          · rw [← h2, hfin]
            simp [hro]
          · rw [← h3, houts]
            simp [List.filterMap_cons, hro]

/-- Claim C1: `BaseValidatorBlock.generate` processes rows in input order; a
row is retained — with the `_validate` verdict written into its resolved
result field — exactly when the verdict is truthy or the block was built with
`filter=False`; otherwise the row is dropped and its result field is never
written (its final state is its input state).  The output is the
order-preserving `filterMap` of the per-row outcomes, so retained rows keep
their relative order. -/
theorem validator_generate_row_routing (vb : BaseValidatorBlock)
    (validate : List Value → List (String × Value) → Value)
    (inputs : List Row) (af kf : Option (List String)) (rf : Option String)
    (vbf : BaseValidatorBlock) (fin outs : List Row)
    (h : vb.generate validate inputs af kf rf = .ok (vbf, fin, outs)) :
    outs = inputs.filterMap (rowOutcome vb validate af kf rf) ∧
    fin = inputs.map (fun y => (rowOutcome vb validate af kf rf y).getD y) := by
  obtain ⟨h1, h2, h3⟩ := generateGo_ok validate af kf rf inputs vb vbf fin outs h
  exact ⟨h3, h2⟩

/-- Witness for C1 at the specification's `filter=True` example: only the
valid row is returned, annotated; the dropped row's result field is never
written. -/
theorem validator_generate_row_routing_witness :
    BaseValidatorBlock.generate vbEx validateEx exInputs none none none =
      .ok (vbEx,
        [Row.mapRow [("v", Value.vInt 1), ("res", Value.vBool true)],
         Row.mapRow [("v", Value.vInt 0)]],
        [Row.mapRow [("v", Value.vInt 1), ("res", Value.vBool true)]]) ∧
    [Row.mapRow [("v", Value.vInt 1), ("res", Value.vBool true)]] =
      exInputs.filterMap (rowOutcome vbEx validateEx none none none) :=
  ⟨rfl,
   (validator_generate_row_routing vbEx validateEx exInputs none none none
      vbEx
      [Row.mapRow [("v", Value.vInt 1), ("res", Value.vBool true)],
       Row.mapRow [("v", Value.vInt 0)]]
      [Row.mapRow [("v", Value.vInt 1), ("res", Value.vBool true)]] rfl).1⟩

/-- Claim C2: constructing a block with a non-list `arg_fields` /
`kwarg_fields` or a non-string `result_field` fails immediately with a
`TypeError` naming the offending argument (the first offender, in source
order), before any row is touched; with well-typed values construction
succeeds and every accessor returns exactly the stored value. -/
theorem block_init_validation (name type : Option String) (a k r : PyObj) :
    (a.isListOrNone = false →
      initBlock name type a k r =
        .error (.typeError "arg_fields must be of type \x27list\x27")) ∧
    (a.isListOrNone = true → k.isListOrNone = false →
      initBlock name type a k r =
        .error (.typeError "kwarg_fields must be of type \x27list\x27")) ∧
    (a.isListOrNone = true → k.isListOrNone = true → r.isStrOrNone = false →
      initBlock name type a k r =
        .error (.typeError "result_field must be of type \x27str\x27")) ∧
    (a.isListOrNone = true → k.isListOrNone = true → r.isStrOrNone = true →
      ∃ b : BaseBlock, initBlock name type a k r = .ok b ∧
        b.name = name ∧ b.block_type = type ∧ b.arg_fields = a.toListOpt ∧
        b.kwarg_fields = k.toListOpt ∧ b.result_field = r.toStrOpt) := by
  refine ⟨?_, ?_, ?_, ?_⟩
  · intro h1
    simp [initBlock, h1]
  · intro h1 h2
    simp [initBlock, h1, h2]
  · intro h1 h2 h3
    simp [initBlock, h1, h2, h3]
  · intro h1 h2 h3
    refine ⟨{ _name := name, _block_type := type, _arg_fields := a.toListOpt,
              _kwarg_fields := k.toListOpt, _result_field := r.toStrOpt },
            ?_, rfl, rfl, rfl, rfl, rfl⟩
    simp [initBlock, h1, h2, h3]

/-- Witness for C2: an `int` for `arg_fields` is rejected with the naming
`TypeError`; a well-typed call succeeds with the accessors returning the
stored configuration. -/
theorem block_init_validation_witness :
    (PyObj.isListOrNone (.pyInt 3) = false ∧
      initBlock none none (.pyInt 3) .pyNone .pyNone =
        .error (.typeError "arg_fields must be of type \x27list\x27")) ∧
    (∃ b : BaseBlock,
      initBlock (some "n") (some "t") (.pyList ["a"]) .pyNone (.pyStr "res") = .ok b ∧
      b.name = some "n" ∧ b.block_type = some "t" ∧
      b.arg_fields = PyObj.toListOpt (.pyList ["a"]) ∧
      b.kwarg_fields = PyObj.toListOpt .pyNone ∧
      b.result_field = PyObj.toStrOpt (.pyStr "res")) :=
  ⟨⟨rfl, (block_init_validation none none (.pyInt 3) .pyNone .pyNone).1 rfl⟩,
   (block_init_validation (some "n") (some "t") (.pyList ["a"]) .pyNone
      (.pyStr "res")).2.2.2 rfl rfl rfl⟩

/-- Claim C3, counterexample: with instance `arg_fields = ["a"]` a supplied
per-call override `[]` does NOT take precedence — Python `or` treats the
empty list as falsy, so projection still uses the instance configuration and
returns one positional value instead of none. -/
theorem override_empty_list_cex :
    pyOrFields (some []) (some ["a"]) = ["a"] ∧
    (bEx.get_args_kwargs (.mapRow [("a", Value.vInt 1)]) (some []) none).2 =
      .ok ([Value.vInt 1], []) ∧
    ([Value.vInt 1] : List Value) ≠ [] :=
  ⟨rfl, rfl, by decide⟩

/-- Claim C3 (amended): the effective field lists prefer the per-call
override only when it is supplied and non-empty; an empty or absent override
falls back to a non-empty instance configuration; if both are empty or
absent the effective list is empty. -/
theorem field_resolution_amended (pc inst : Option (List String)) :
    (∀ a l, pc = some (a :: l) → pyOrFields pc inst = a :: l) ∧
    ((pc = none ∨ pc = some []) →
      ∀ a l, inst = some (a :: l) → pyOrFields pc inst = a :: l) ∧
    ((pc = none ∨ pc = some []) → (inst = none ∨ inst = some []) →
      pyOrFields pc inst = []) := by
  refine ⟨?_, ?_, ?_⟩
  · rintro a l rfl
    cases inst with
    | none => rfl
    | some l2 => cases l2 <;> rfl
  · rintro (rfl | rfl) a l rfl <;> rfl
  · rintro (rfl | rfl) (rfl | rfl) <;> rfl

/-- Witness for the amended C3 at concrete inputs: a non-empty override wins,
an empty override falls back, and two empties resolve to `[]`. -/
theorem field_resolution_amended_witness :
    pyOrFields (some ["x"]) (some ["y"]) = ["x"] ∧
    pyOrFields (some []) (some ["y"]) = ["y"] ∧
    pyOrFields none none = [] :=
  ⟨(field_resolution_amended (some ["x"]) (some ["y"])).1 "x" [] rfl,
   (field_resolution_amended (some []) (some ["y"])).2.1 (Or.inr rfl) "y" [] rfl,
   (field_resolution_amended none none).2.2 (Or.inl rfl) (Or.inl rfl)⟩

/-- Claim C4: when `result_field` is `None` both at construction and
per-call, `write_result` and `get_result` fail with the assertion
"Result field cannot be None!", and the write produces no row — the row is
left unmodified. -/
theorem unresolved_result_field_error (b : BaseBlock) (inp : Row) (v : Value)
    (h : b._result_field = none) :
    (b.write_result inp v none).2 =
      .error (.assertionError "Result field cannot be None!") ∧
    (b.get_result inp none).2 =
      .error (.assertionError "Result field cannot be None!") ∧
    ∀ r2 : Row, (b.write_result inp v none).2 ≠ .ok r2 := by
  have hrf : pyOrStr none b._result_field = none := by rw [show pyOrStr none b._result_field = b._result_field from rfl, h]
  refine ⟨?_, ?_, ?_⟩
  · unfold BaseBlock.write_result
    rw [hrf]
  · unfold BaseBlock.get_result
    rw [hrf]
  · intro r2
    unfold BaseBlock.write_result
    rw [hrf]
    simp

/-- Witness for C4 at a block with no configuration and a concrete row. -/
theorem unresolved_result_field_error_witness :
    bEmpty._result_field = none ∧
    (bEmpty.write_result (.mapRow [("a", Value.vInt 1)]) (Value.vBool true) none).2 =
      .error (.assertionError "Result field cannot be None!") ∧
    (bEmpty.get_result (.mapRow [("a", Value.vInt 1)]) none).2 =
      .error (.assertionError "Result field cannot be None!") :=
  ⟨rfl,
   (unresolved_result_field_error bEmpty (.mapRow [("a", Value.vInt 1)])
      (Value.vBool true) rfl).1,
   (unresolved_result_field_error bEmpty (.mapRow [("a", Value.vInt 1)])
      (Value.vBool true) rfl).2.1⟩

/-- Claim C5, divergence of the code from the claim, at the failing input:
the same content, as a mapping-style row, projects to the stored value, but
as an attribute-style row (`pd.Series`) it is rejected with a `TypeError` —
projection does not treat the two representations alike, although the
source's own row type `DATASET_ROW_TYPE` includes `pd.Series`.  Rows of any
other representation do fail with a `TypeError` naming their type. -/
theorem series_row_projection_divergence :
    (bEx.get_args_kwargs (.mapRow [("a", Value.vInt 1)]) none none).2 =
      .ok ([Value.vInt 1], []) ∧
    (bEx.get_args_kwargs (.attrRow [("a", Value.vInt 1)]) none none).2 =
      .error (.typeError
        "Unexpected input type: <class \x27pandas.core.series.Series\x27>") ∧
    (bEx.get_args_kwargs (.otherRow "<class \x27int\x27>") none none).2 =
      .error (.typeError "Unexpected input type: <class \x27int\x27>") :=
  ⟨rfl, rfl, rfl⟩

/-- Claim C6: on a mapping-style row projection never fails; every configured
name absent from the row projects to the absent marker (`dict.get` returns
`None`, embedded as `Value.vNone`), and present names project to their stored
values, positionally in configuration order. -/
theorem projection_missing_key_marker (b : BaseBlock)
    (es : List (String × Value)) (af kf : List String)
    (haf : af ≠ []) (hkf : kf ≠ []) :
    (b.get_args_kwargs (.mapRow es) (some af) (some kf)).2 =
      .ok (af.map (fun a => (lookupField es a).getD Value.vNone),
           buildKwargs es kf) ∧
    ∀ a, lookupField es a = none →
      (lookupField es a).getD Value.vNone = Value.vNone := by
  constructor
  · cases af with
    | nil => exact absurd rfl haf
    | cons a af2 =>
      cases kf with
      | nil => exact absurd rfl hkf
      | cons c kf2 => simp [BaseBlock.get_args_kwargs, pyOrFields_cons, dictGet]
  · intro a ha
    rw [ha]
    rfl

/-- Witness for C6 at the specification's example row
`\x7b"a":1,"b":2,"c":3,"d":4\x7d` with `arg_fields=["a","b"]`,
`kwarg_fields=["c"]`, and at a row where a configured field is absent. -/
theorem projection_missing_key_marker_witness :
    (["a", "b"] : List String) ≠ [] ∧
    (bEmpty.get_args_kwargs
        (.mapRow [("a", Value.vInt 1), ("b", Value.vInt 2),
                  ("c", Value.vInt 3), ("d", Value.vInt 4)])
        (some ["a", "b"]) (some ["c"])).2 =
      .ok ([Value.vInt 1, Value.vInt 2], [("c", Value.vInt 3)]) ∧
    (bEmpty.get_args_kwargs (.mapRow [("a", Value.vInt 1)])
        (some ["a", "z"]) (some ["z"])).2 =
      .ok ([Value.vInt 1, Value.vNone], [("z", Value.vNone)]) :=
  ⟨by decide,
   (projection_missing_key_marker bEmpty
      [("a", Value.vInt 1), ("b", Value.vInt 2), ("c", Value.vInt 3), ("d", Value.vInt 4)]
      ["a", "b"] ["c"] (by decide) (by decide)).1,
   (projection_missing_key_marker bEmpty [("a", Value.vInt 1)]
      ["a", "z"] ["z"] (by decide) (by decide)).1⟩

/-- Claim C7: round-trip — whenever `write_result` succeeds on a row with
value `v`, `get_result` with the same per-call `result_field` on the written
row returns exactly `v` (the most recently committed value for the resolved
field). -/
theorem write_read_roundtrip (b : BaseBlock) (inp : Row) (v : Value)
    (rfOpt : Option String) (r2 : Row)
    (h : (b.write_result inp v rfOpt).2 = .ok r2) :
    (b.get_result r2 rfOpt).2 = .ok v := by
  unfold BaseBlock.write_result at h
  unfold BaseBlock.get_result
  cases hrf : pyOrStr rfOpt b._result_field with
  | none =>
    rw [hrf] at h
    simp at h
  | some f =>
    rw [hrf] at h
    cases inp with
    | mapRow es =>
      simp only [Except.ok.injEq] at h
      rw [← h]
      simp [lookupField_setFieldD]
    | attrRow es => simp at h
    | otherRow t => simp at h

/-- Witness for C7: commit `7` to field `res` of `\x7b"a":1\x7d`, then read it
back. -/
theorem write_read_roundtrip_witness :
    (bEx.write_result (.mapRow [("a", Value.vInt 1)]) (Value.vInt 7) none).2 =
      .ok (.mapRow [("a", Value.vInt 1), ("res", Value.vInt 7)]) ∧
    (bEx.get_result (.mapRow [("a", Value.vInt 1), ("res", Value.vInt 7)]) none).2 =
      .ok (Value.vInt 7) :=
  ⟨rfl,
   write_read_roundtrip bEx (.mapRow [("a", Value.vInt 1)]) (Value.vInt 7) none
     (.mapRow [("a", Value.vInt 1), ("res", Value.vInt 7)]) rfl⟩

/-- Claim C8: no operation mutates the stored configuration.  `generate`
returns its receiver unchanged — so every accessor and the filter flag keep
their construction-time values — and projection, result write and result
read each return their receiver unchanged, with or without per-call
overrides. -/
theorem config_frame_immutable (vb : BaseValidatorBlock)
    (validate : List Value → List (String × Value) → Value)
    (inputs : List Row) (af kf : Option (List String)) (rf : Option String)
    (b : BaseBlock) (inp : Row) (v : Value) :
    (∀ vbf fin outs, vb.generate validate inputs af kf rf = .ok (vbf, fin, outs) →
      vbf = vb ∧ vbf.toBaseBlock.name = vb.toBaseBlock.name ∧
      vbf.toBaseBlock.block_type = vb.toBaseBlock.block_type ∧
      vbf.toBaseBlock.arg_fields = vb.toBaseBlock.arg_fields ∧
      vbf.toBaseBlock.kwarg_fields = vb.toBaseBlock.kwarg_fields ∧
      vbf.toBaseBlock.result_field = vb.toBaseBlock.result_field ∧
      vbf._filter_invalids = vb._filter_invalids) ∧
    (b.get_args_kwargs inp af kf).1 = b ∧
    (b.write_result inp v rf).1 = b ∧
    (b.get_result inp rf).1 = b := by
  refine ⟨?_, get_args_kwargs_fst b inp af kf, write_result_fst b inp v rf,
          get_result_fst b inp rf⟩
  intro vbf fin outs h
  obtain ⟨h1, -, -⟩ := generateGo_ok validate af kf rf inputs vb vbf fin outs h
  subst h1
  exact ⟨rfl, rfl, rfl, rfl, rfl, rfl, rfl⟩

/-- Witness for C8: a concrete `generate` call returns the receiver with the
filter flag (and the rest of the configuration) unchanged; a concrete
projection returns its receiver unchanged. -/
theorem config_frame_immutable_witness :
    BaseValidatorBlock.generate vbEx validateEx exInputs none none none =
      .ok (vbEx,
        [Row.mapRow [("v", Value.vInt 1), ("res", Value.vBool true)],
         Row.mapRow [("v", Value.vInt 0)]],
        [Row.mapRow [("v", Value.vInt 1), ("res", Value.vBool true)]]) ∧
    vbEx._filter_invalids = vbEx._filter_invalids ∧
    (bEx.get_args_kwargs (.mapRow [("a", Value.vInt 1)]) none none).1 = bEx :=
  ⟨rfl,
   ((config_frame_immutable vbEx validateEx exInputs none none none bEx
       (.mapRow [("a", Value.vInt 1)]) Value.vNone).1 vbEx
       [Row.mapRow [("v", Value.vInt 1), ("res", Value.vBool true)],
        Row.mapRow [("v", Value.vInt 0)]]
       [Row.mapRow [("v", Value.vInt 1), ("res", Value.vBool true)]] rfl).2.2.2.2.2.2,
   (config_frame_immutable vbEx validateEx exInputs none none none bEx
       (.mapRow [("a", Value.vInt 1)]) Value.vNone).2.1⟩

/-- Claim C9: determinism — `_validate` is embedded as a pure function, and
two `generate` calls on equal input collections with the same per-call
overrides return equal results: the same retained rows with the same written
verdicts, in the same order. -/
theorem generate_deterministic (vb : BaseValidatorBlock)
    (validate : List Value → List (String × Value) → Value)
    (i1 i2 : List Row) (af kf : Option (List String)) (rf : Option String)
    (h : i1 = i2) :
    vb.generate validate i1 af kf rf = vb.generate validate i2 af kf rf := by
  rw [h]

/-- Witness for C9 at the example validator and inputs. -/
theorem generate_deterministic_witness :
    BaseValidatorBlock.generate vbEx validateEx exInputs none none none =
      BaseValidatorBlock.generate vbEx validateEx exInputs none none none :=
  generate_deterministic vbEx validateEx exInputs exInputs none none none rfl

/-- Claim C10: result read-back is strict — on a mapping-style row that lacks
the resolved result field, `get_result` fails with a `KeyError` (Python
`inp[result_field]`), while projecting the same absent name yields the
absent marker `None`. -/
theorem read_result_strict_access (b : BaseBlock) (es : List (String × Value))
    (f : String) (hrf : b._result_field = some f) (hkw : b._kwarg_fields = none)
    (hmiss : lookupField es f = none) :
    (b.get_result (.mapRow es) none).2 = .error (.keyError f) ∧
    (b.get_args_kwargs (.mapRow es) (some [f]) none).2 =
      .ok ([Value.vNone], []) := by
  constructor
  · unfold BaseBlock.get_result
    rw [show pyOrStr none b._result_field = b._result_field from rfl, hrf]
    simp [hmiss]
  · unfold BaseBlock.get_args_kwargs
    rw [show pyOrFields none b._kwarg_fields = pyOrFields none b._kwarg_fields from rfl]
    simp [hkw, pyOrFields, dictGet, hmiss, buildKwargs]

/-- Witness for C10: `bEx` resolves result field `res`, which is absent from
`\x7b"a":1\x7d`: reading raises `KeyError`, projecting yields `None`. -/
theorem read_result_strict_access_witness :
    bEx._result_field = some "res" ∧
    lookupField [("a", Value.vInt 1)] "res" = none ∧
    (bEx.get_result (.mapRow [("a", Value.vInt 1)]) none).2 =
      .error (.keyError "res") ∧
    (bEx.get_args_kwargs (.mapRow [("a", Value.vInt 1)]) (some ["res"]) none).2 =
      .ok ([Value.vNone], []) := by
  have h := read_result_strict_access bEx [("a", Value.vInt 1)] "res" rfl rfl
    (by decide)
  exact ⟨rfl, by decide, h.1, h.2⟩
